import Mathlib

/-!
Verification of `proxygen/lib/http/codec/HQMultiCodec.h` (class `HQMultiCodec`),
the per-connection HTTP/3 stream demultiplexer.

Shallow embedding notes:
* `StreamID` and push ids are `uint64_t` in the source; they are modelled as
  `Nat`.  All arithmetic the demultiplexer performs on them is `+ 1`, `+ 4`
  and `max`, and protocol-valid identifiers are QUIC varints (`< 2 ^ 62`), so
  `uint64_t` overflow is unreachable and the `Nat` model is faithful.
* The per-stream codec (`HQStreamCodec`) and the QPACK compression context are
  external collaborators: only the slice of a codec that `HQMultiCodec` itself
  reads or writes (its stream id and its callback) is part of the state, and
  the codec's own frame processing is abstracted by an oracle function
  supplied to each dispatch operation.
* `F14FastMap<StreamID, unique_ptr<HQStreamCodec>>` is modelled as a function
  `Nat → Option CodecS`.  To express object identity (which `make_unique`
  instance sits in the map — needed to settle the emplace-overwrite question)
  each constructed codec carries a ghost `tag`, drawn from a ghost construction
  counter `codecCtr_` on the demultiplexer state; neither exists in the C++
  state, and no operation branches on them.
* `CHECK` failures (`getCodec` on an unknown stream, `nextPushID` in the wrong
  transport direction) abort the process; the corresponding operations return
  `Option`, with `none` for the fatal path.
* Members inherited from the base codec classes (`transportDirection_`,
  `callback_`, `sentGoaway_`, `minUnseenStreamID_`, `minUnseenPushID_`) are
  plain state fields; the `HQMultiCodec` constructor initialises
  `minUnseenStreamID_ = 0` and `minUnseenPushID_ = 0` explicitly, and the
  remaining initial values (`currentStream_ = MaxStreamID`, `nextPushID_ = 0`,
  null callback, no goaway sent) come from the member initialisers.
-/

namespace HQ

/-- `TransportDirection` (DOWNSTREAM = server/Responder, UPSTREAM =
client/Initiator). -/
inductive TransportDirection where
  | downstream
  | upstream
deriving DecidableEq, Repr

/-- `HTTPCodec::Callback*`: an opaque pointer value; `none` is `nullptr`. -/
abbrev Callback := Option Nat

/-- Modelled from the spec: `HTTPCodec::MaxStreamID` (declared in
`HTTPCodec.h`, which is not under `src/`) is the reserved maximum stream
identifier, used by `HQMultiCodec` as the "no stream selected" sentinel for
`currentStream_`.  `StreamID` is `uint64_t`, so the maximum is `2 ^ 64 - 1`. -/
def MaxStreamID : Nat := 2 ^ 64 - 1

/-- The slice of an `HQStreamCodec` instance that `HQMultiCodec` itself reads
or writes: the stream id it was constructed with and its current callback.
`tag` is a ghost instance identifier assigned at construction, used only to
reason about object identity (it never influences behaviour). -/
structure CodecS where
  streamId : Nat
  callback : Callback
  tag : Nat
deriving DecidableEq, Repr

/-- The mutable state of an `HQMultiCodec` object (own members plus the
inherited members it uses).  `codecCtr_` is the ghost construction counter for
`CodecS.tag`. -/
structure HQMultiCodecS where
  transportDirection_ : TransportDirection
  currentStream_ : Nat
  codecs_ : Nat → Option CodecS
  callback_ : Callback
  nextPushID_ : Nat
  minUnseenStreamID_ : Nat
  minUnseenPushID_ : Nat
  sentGoaway_ : Bool
  codecCtr_ : Nat

/-- `HQMultiCodec(TransportDirection direction)`: the constructor.
`minUnseenStreamID_` and `minUnseenPushID_` are set to 0 in the constructor
body; `currentStream_{HTTPCodec::MaxStreamID}` and `nextPushID_{0}` are member
initialisers; the callback starts null and no goaway has been sent. -/
def HQMultiCodec (direction : TransportDirection) : HQMultiCodecS where
  transportDirection_ := direction
  currentStream_ := MaxStreamID
  codecs_ := fun _ => none
  callback_ := none
  nextPushID_ := 0
  minUnseenStreamID_ := 0
  minUnseenPushID_ := 0
  sentGoaway_ := false
  codecCtr_ := 0

/-- Client-initiated bidirectional streams in the HTTP/3 numbering are those
with id ≡ 0 (mod 4); the source tests this as `(streamId & 0x3) == 0`. -/
def isClientInitiatedBidi (id : Nat) : Bool := id % 4 == 0

namespace HQMultiCodecS

/-- `setCurrentStream(StreamID currentStream)`: returns `false` if the stream
is not in `codecs_`; otherwise records it as the current stream and returns
`true`. -/
def setCurrentStream (st : HQMultiCodecS) (currentStream : Nat) :
    Bool × HQMultiCodecS :=
  match st.codecs_ currentStream with
  | none => (false, st)
  | some _ => (true, { st with currentStream_ := currentStream })

/-- `addCodec(StreamID streamId)`: bumps `minUnseenStreamID_` for
client-initiated bidirectional streams when the codec is DOWNSTREAM, then
`emplace`s a freshly constructed `HQStreamCodec` (`emplace` inserts only if
the key is absent and returns the surviving entry either way), sets the shared
callback on that surviving entry, and returns it.  The fresh codec is
constructed (`make_unique` runs before `emplace` decides) with ghost tag
`codecCtr_`; its callback starts null because the `HQStreamCodec` constructor
takes no callback. -/
def addCodec (st : HQMultiCodecS) (streamId : Nat) : CodecS × HQMultiCodecS :=
  let st1 :=
    if st.transportDirection_ = TransportDirection.downstream ∧
        streamId &&& 3 = 0 ∧ st.minUnseenStreamID_ ≤ streamId then
      { st with minUnseenStreamID_ := streamId + 4 }
    else st
  let fresh : CodecS := { streamId := streamId, callback := none, tag := st1.codecCtr_ }
  let st2 := { st1 with codecCtr_ := st1.codecCtr_ + 1 }
  let entry :=
    match st2.codecs_ streamId with
    | some old => old
    | none => fresh
  let entry2 := { entry with callback := st2.callback_ }
  (entry2,
    { st2 with codecs_ := fun k => if k = streamId then some entry2 else st2.codecs_ k })

/-- `removeCodec(StreamID streamId)`: `codecs_.erase(streamId)`. -/
def removeCodec (st : HQMultiCodecS) (streamId : Nat) : HQMultiCodecS :=
  { st with codecs_ := fun k => if k = streamId then none else st.codecs_ k }

/-- `setCallback(Callback* callback)`: stores the callback (via the base
`HQControlCodec::setCallback`) and propagates it to every registered codec. -/
def setCallback (st : HQMultiCodecS) (callback : Callback) : HQMultiCodecS :=
  { st with
    callback_ := callback,
    codecs_ := fun k => (st.codecs_ k).map fun c => { c with callback := callback } }

/-- `onIngress(const folly::IOBuf& buf)`: dispatches to
`getCurrentCodec().onIngress(buf)` — fatal (`none`) if `currentStream_` is not
registered, per the `CHECK` in `getCodec` — then resets `currentStream_` to
the sentinel and returns the inner result.  `inner` abstracts the external
`HQStreamCodec::onIngress` applied to the buffer, yielding the consumed byte
count. -/
def onIngress (st : HQMultiCodecS) (inner : CodecS → Nat) :
    Option (Nat × HQMultiCodecS) :=
  match st.codecs_ st.currentStream_ with
  | none => none
  | some c => some (inner c, { st with currentStream_ := MaxStreamID })

/-- `onIngressEOF()`: dispatches `onIngressEOF` to the current codec (fatal if
none is registered) and resets `currentStream_` to the sentinel. -/
def onIngressEOF (st : HQMultiCodecS) : Option HQMultiCodecS :=
  match st.codecs_ st.currentStream_ with
  | none => none
  | some _ => some { st with currentStream_ := MaxStreamID }

/-- `isReusable()`: `!sentGoaway_`. -/
def isReusable (st : HQMultiCodecS) : Bool := !st.sentGoaway_

/-- `supportsParallelRequests()`: always `true`. -/
def supportsParallelRequests (_st : HQMultiCodecS) : Bool := true

/-- `nextPushID()`: `CHECK_EQ(transportDirection_, DOWNSTREAM)` (fatal —
`none` — otherwise), then returns `nextPushID_++`: the current counter value,
with the counter incremented by one. -/
def nextPushID (st : HQMultiCodecS) : Option (Nat × HQMultiCodecS) :=
  if st.transportDirection_ = TransportDirection.downstream then
    some (st.nextPushID_, { st with nextPushID_ := st.nextPushID_ + 1 })
  else none

/-- `onIngressPushId(uint64_t pushId)`:
`minUnseenPushID_ = std::max(minUnseenPushID_, pushId + 1)`. -/
def onIngressPushId (st : HQMultiCodecS) (pushId : Nat) : HQMultiCodecS :=
  { st with minUnseenPushID_ := max st.minUnseenPushID_ (pushId + 1) }

/-- `generateHeader(writeBuf, stream, msg, eom, size, extraHeaders)`:
`getCodec(stream).generateHeader(...)` — fatal (`none`) if `stream` is not
registered.  `gen` abstracts the external `HQStreamCodec::generateHeader`
applied to all its arguments; the returned `Nat` stands for its observable
effect (bytes written into `writeBuf`; the C++ member returns `void`).  The
demultiplexer state is returned unchanged. -/
def generateHeader (st : HQMultiCodecS) (gen : CodecS → Nat) (stream : Nat) :
    Option (Nat × HQMultiCodecS) :=
  match st.codecs_ stream with
  | none => none
  | some c => some (gen c, st)

/-- `generatePushPromise(writeBuf, stream, msg, pushID, eom, size)`:
`getCodec(stream).generatePushPromise(...)`; same modelling as
`generateHeader`. -/
def generatePushPromise (st : HQMultiCodecS) (gen : CodecS → Nat) (stream : Nat) :
    Option (Nat × HQMultiCodecS) :=
  match st.codecs_ stream with
  | none => none
  | some c => some (gen c, st)

/-- `generateBody(writeBuf, stream, chain, padding, eom)`: returns
`getCodec(stream).generateBody(...)`; fatal (`none`) if `stream` is not
registered. -/
def generateBody (st : HQMultiCodecS) (gen : CodecS → Nat) (stream : Nat) :
    Option (Nat × HQMultiCodecS) :=
  match st.codecs_ stream with
  | none => none
  | some c => some (gen c, st)

/-- `generateTrailers(writeBuf, stream, trailers)`: returns
`getCodec(stream).generateTrailers(...)`; fatal (`none`) if `stream` is not
registered. -/
def generateTrailers (st : HQMultiCodecS) (gen : CodecS → Nat) (stream : Nat) :
    Option (Nat × HQMultiCodecS) :=
  match st.codecs_ stream with
  | none => none
  | some c => some (gen c, st)

/-- `generateEOM(writeBuf, stream)`: returns
`getCodec(stream).generateEOM(...)`; fatal (`none`) if `stream` is not
registered. -/
def generateEOM (st : HQMultiCodecS) (gen : CodecS → Nat) (stream : Nat) :
    Option (Nat × HQMultiCodecS) :=
  match st.codecs_ stream with
  | none => none
  | some c => some (gen c, st)

end HQMultiCodecS

/-- Iterated `nextPushID`: the list of push ids returned by `n` successive
allocations together with the final state (allocation stops if a call is
fatal). -/
def allocPushIds : HQMultiCodecS → Nat → List Nat × HQMultiCodecS
  | st, 0 => ([], st)
  | st, n + 1 =>
    match st.nextPushID with
    | none => ([], st)
    | some (v, st1) =>
      let p := allocPushIds st1 n
      (v :: p.1, p.2)

/-- One public operation on the demultiplexer, with the external per-stream
codec's result abstracted as the `Nat` carried by the operation. -/
inductive Op where
  | addCodec (id : Nat)
  | removeCodec (id : Nat)
  | setCurrentStream (id : Nat)
  | onIngress (r : Nat)
  | onIngressEOF
  | generateHeader (stream r : Nat)
  | generatePushPromise (stream r : Nat)
  | generateBody (stream r : Nat)
  | generateTrailers (stream r : Nat)
  | generateEOM (stream r : Nat)
  | nextPushID
  | setCallback (cb : Callback)
deriving DecidableEq, Repr

/-- Apply one public operation; `none` when the operation hits a fatal
`CHECK`. -/
def applyOp (st : HQMultiCodecS) : Op → Option HQMultiCodecS
  | .addCodec id => some (st.addCodec id).2
  | .removeCodec id => some (st.removeCodec id)
  | .setCurrentStream id => some (st.setCurrentStream id).2
  | .onIngress r => (st.onIngress fun _ => r).map Prod.snd
  | .onIngressEOF => st.onIngressEOF
  | .generateHeader stream r => (st.generateHeader (fun _ => r) stream).map Prod.snd
  | .generatePushPromise stream r =>
    (st.generatePushPromise (fun _ => r) stream).map Prod.snd
  | .generateBody stream r => (st.generateBody (fun _ => r) stream).map Prod.snd
  | .generateTrailers stream r => (st.generateTrailers (fun _ => r) stream).map Prod.snd
  | .generateEOM stream r => (st.generateEOM (fun _ => r) stream).map Prod.snd
  | .nextPushID => st.nextPushID.map Prod.snd
  | .setCallback cb => some (st.setCallback cb)

/-- Run a sequence of public operations; `none` if any operation is fatal. -/
def runOps (st : HQMultiCodecS) : List Op → Option HQMultiCodecS
  | [] => some st
  | op :: ops =>
    match applyOp st op with
    | none => none
    | some st1 => runOps st1 ops

/-- The cursor condition of spec invariant I2: `currentStream_` is the
sentinel or a key currently present in the registry. -/
def CursorOk (st : HQMultiCodecS) : Prop :=
  st.currentStream_ = MaxStreamID ∨ (st.codecs_ st.currentStream_).isSome = true

instance (st : HQMultiCodecS) : Decidable (CursorOk st) := by
  unfold CursorOk; infer_instance

/-- States reachable from the initial state by public operations under the
discipline that `removeCodec` is never invoked on the currently selected
stream. -/
inductive SafeReach (d : TransportDirection) : HQMultiCodecS → Prop where
  | init : SafeReach d (HQMultiCodec d)
  | step {st : HQMultiCodecS} {op : Op} {st1 : HQMultiCodecS} :
      SafeReach d st → applyOp st op = some st1 →
      (∀ id, op = Op.removeCodec id → st.currentStream_ ≠ id) →
      SafeReach d st1

end HQ

namespace HQ

/-! Concrete demonstration states shared by the witnesses. -/

/-- A downstream demultiplexer with one codec registered for stream 0. -/
def demoAdded : HQMultiCodecS :=
  ((HQMultiCodec TransportDirection.downstream).addCodec 0).2

/-- `demoAdded` with stream 0 selected as the current stream. -/
def demoSelected : HQMultiCodecS := (demoAdded.setCurrentStream 0).2

/-- A downstream demultiplexer with one codec registered for stream 5. -/
def demoDup : HQMultiCodecS :=
  ((HQMultiCodec TransportDirection.downstream).addCodec 5).2

end HQ

namespace HQ

/-- Claim C1: when `currentStream_` selects a registered codec, `onIngress`
returns the inner codec's result and `onIngressEOF` returns, and both leave
`currentStream_` equal to the sentinel `MaxStreamID` — for every possible
inner-codec result `inner`. -/
theorem onIngress_resets_currentStream (inner : CodecS → Nat)
    (st : HQMultiCodecS) (c : CodecS)
    (h : st.codecs_ st.currentStream_ = some c) :
    st.onIngress inner = some (inner c, { st with currentStream_ := MaxStreamID }) ∧
    st.onIngressEOF = some { st with currentStream_ := MaxStreamID } := by
  simp [HQMultiCodecS.onIngress, HQMultiCodecS.onIngressEOF, h]

/-- Witness for C1 at the concrete state `demoSelected`. -/
theorem onIngress_resets_currentStream_witness :
    demoSelected.codecs_ demoSelected.currentStream_ = some ⟨0, none, 0⟩ ∧
    (demoSelected.onIngress (fun _ => 7) =
        some (7, { demoSelected with currentStream_ := MaxStreamID }) ∧
      demoSelected.onIngressEOF =
        some { demoSelected with currentStream_ := MaxStreamID }) :=
  ⟨by decide,
   onIngress_resets_currentStream (fun _ => 7) demoSelected ⟨0, none, 0⟩ (by decide)⟩

/-- Claim C2: on a DOWNSTREAM (Responder) demultiplexer, `addCodec id`
advances `minUnseenStreamID_` to `id + 4` exactly when `id` is a
client-initiated bidirectional stream id and `id` is at least the current
bound, and leaves it unchanged otherwise; in particular from the initial
state `addCodec 4` then `addCodec 8` leaves the bound at 12, and a further
`addCodec 9` does not change it. -/
theorem addCodec_minUnseenStreamID (st : HQMultiCodecS) (id : Nat)
    (h : st.transportDirection_ = TransportDirection.downstream) :
    ((st.addCodec id).2.minUnseenStreamID_ =
      if isClientInitiatedBidi id = true ∧ st.minUnseenStreamID_ ≤ id then id + 4
      else st.minUnseenStreamID_) ∧
    ((((HQMultiCodec TransportDirection.downstream).addCodec 4).2.addCodec
          8).2.minUnseenStreamID_ = 12 ∧
      ((((HQMultiCodec TransportDirection.downstream).addCodec 4).2.addCodec
            8).2.addCodec 9).2.minUnseenStreamID_ = 12) := by
  constructor
  · have h3 : id &&& 3 = id % 4 := by
      have h4 := Nat.and_pow_two_sub_one_eq_mod id 2
      norm_num at h4
      exact h4
    unfold HQMultiCodecS.addCodec
    simp only [isClientInitiatedBidi, beq_iff_eq, h3, h, true_and]
    split <;> rfl
  · exact ⟨by decide, by decide⟩

/-- Witness for C2 at `id = 8` on the state reached by `addCodec 4`. -/
theorem addCodec_minUnseenStreamID_witness :
    ((((HQMultiCodec TransportDirection.downstream).addCodec 4).2.addCodec
          8).2.minUnseenStreamID_ =
      if isClientInitiatedBidi 8 = true ∧
          ((HQMultiCodec TransportDirection.downstream).addCodec
              4).2.minUnseenStreamID_ ≤ 8 then 8 + 4
      else ((HQMultiCodec TransportDirection.downstream).addCodec
          4).2.minUnseenStreamID_) ∧
    ((((HQMultiCodec TransportDirection.downstream).addCodec 4).2.addCodec
          8).2.minUnseenStreamID_ = 12 ∧
      ((((HQMultiCodec TransportDirection.downstream).addCodec 4).2.addCodec
            8).2.addCodec 9).2.minUnseenStreamID_ = 12) :=
  addCodec_minUnseenStreamID
    ((HQMultiCodec TransportDirection.downstream).addCodec 4).2 8 rfl

/-- Claim C3: `setCurrentStream id` returns `true` and sets `currentStream_`
to `id` when `id` is registered, and returns `false` leaving the whole state
unchanged when it is not. -/
theorem setCurrentStream_spec (st : HQMultiCodecS) (id : Nat) :
    (∀ c, st.codecs_ id = some c →
      st.setCurrentStream id = (true, { st with currentStream_ := id })) ∧
    (st.codecs_ id = none → st.setCurrentStream id = (false, st)) := by
  constructor
  · intro c h
    simp [HQMultiCodecS.setCurrentStream, h]
  · intro h
    simp [HQMultiCodecS.setCurrentStream, h]

/-- Witness for C3: stream 0 is registered in `demoAdded`, stream 1 is not. -/
theorem setCurrentStream_spec_witness :
    demoAdded.setCurrentStream 0 = (true, { demoAdded with currentStream_ := 0 }) ∧
    demoAdded.setCurrentStream 1 = (false, demoAdded) :=
  ⟨(setCurrentStream_spec demoAdded 0).1 ⟨0, none, 0⟩ (by decide),
   (setCurrentStream_spec demoAdded 1).2 (by decide)⟩

/-- Claim C4 (counterexample): adding stream 5 twice performs two codec
constructions (ghost tags 0 and 1; `codecCtr_ = 2` afterwards), yet the
registry entry for 5 still carries tag 0 — the first instance.  `emplace`
does not overwrite an existing mapping, so the spec sentence "calling with an
`id` already present overwrites the previous mapping" is false of the code. -/
theorem addCodec_overwrite_counterexample :
    (((HQMultiCodec TransportDirection.downstream).addCodec 5).2.addCodec
          5).2.codecs_ 5 = some ⟨5, none, 0⟩ ∧
    (((HQMultiCodec TransportDirection.downstream).addCodec 5).2.addCodec
        5).2.codecCtr_ = 2 := by
  decide

/-- Claim C4 (amended): when the registry already contains a live codec for
`id`, a second `addCodec id` does not overwrite the mapping — the entry for
`id` afterwards is still the originally registered instance (same ghost tag
and stream id), not the newly constructed codec. -/
theorem addCodec_duplicate_keeps_old (st : HQMultiCodecS) (id : Nat)
    (c : CodecS) (h : st.codecs_ id = some c) :
    ((st.addCodec id).2.codecs_ id).map CodecS.tag = some c.tag ∧
    ((st.addCodec id).2.codecs_ id).map CodecS.streamId = some c.streamId := by
  unfold HQMultiCodecS.addCodec
  split <;> simp [h]

/-- Witness for the amended C4 on the concrete duplicate add of stream 5. -/
theorem addCodec_duplicate_keeps_old_witness :
    ((demoDup.addCodec 5).2.codecs_ 5).map CodecS.tag = some 0 ∧
    ((demoDup.addCodec 5).2.codecs_ 5).map CodecS.streamId = some 5 :=
  addCodec_duplicate_keeps_old demoDup 5 ⟨5, none, 0⟩ (by decide)

/-- Claim C10: when the registry already contains codec `c` for `id`,
`addCodec id` returns the pre-existing instance with the stored shared
callback re-applied, leaves exactly that instance registered under `id`, and
performs (then discards) one fresh construction — the ghost construction
counter advances by one while the registered tag stays `c.tag`. -/
theorem addCodec_duplicate_returns_existing (st : HQMultiCodecS) (id : Nat)
    (c : CodecS) (h : st.codecs_ id = some c) :
    (st.addCodec id).1 = { c with callback := st.callback_ } ∧
    (st.addCodec id).2.codecs_ id = some { c with callback := st.callback_ } ∧
    (st.addCodec id).2.codecCtr_ = st.codecCtr_ + 1 := by
  unfold HQMultiCodecS.addCodec
  split <;> simp [h]

/-- Witness for C10 on the concrete duplicate add of stream 5. -/
theorem addCodec_duplicate_returns_existing_witness :
    (demoDup.addCodec 5).1 = ⟨5, none, 0⟩ ∧
    (demoDup.addCodec 5).2.codecs_ 5 = some ⟨5, none, 0⟩ ∧
    (demoDup.addCodec 5).2.codecCtr_ = 2 :=
  addCodec_duplicate_returns_existing demoDup 5 ⟨5, none, 0⟩ (by decide)

/-- Auxiliary for C5: on a DOWNSTREAM demultiplexer, `n` successive
`nextPushID` allocations return the consecutive values starting at the
current counter. -/
theorem allocPushIds_fst (n : Nat) : ∀ st : HQMultiCodecS,
    st.transportDirection_ = TransportDirection.downstream →
    (allocPushIds st n).1 = List.range' st.nextPushID_ n := by
  induction n with
  | zero => intro st h; rfl
  | succ n ih =>
    intro st h
    simp only [allocPushIds, HQMultiCodecS.nextPushID, h, if_pos, List.range'_succ]
    rw [ih { st with transportDirection_ := TransportDirection.downstream,
                     nextPushID_ := st.nextPushID_ + 1 } rfl]

/-- Claim C5: in the Responder (DOWNSTREAM) role each `nextPushID` call
returns the current counter value and increments the counter by exactly one
(hence the counter is non-decreasing), and `n` allocations from the initial
state return the `n` distinct values `0, 1, …, n-1` in increasing order. -/
theorem nextPushID_sequential (n : Nat) (st : HQMultiCodecS)
    (h : st.transportDirection_ = TransportDirection.downstream) :
    st.nextPushID =
      some (st.nextPushID_, { st with nextPushID_ := st.nextPushID_ + 1 }) ∧
    (allocPushIds (HQMultiCodec TransportDirection.downstream) n).1 =
      List.range n := by
  refine ⟨by simp [HQMultiCodecS.nextPushID, h], ?_⟩
  rw [allocPushIds_fst n (HQMultiCodec TransportDirection.downstream) rfl]
  exact (List.range_eq_range' n).symm

/-- Witness for C5 with five allocations from the initial Responder state. -/
theorem nextPushID_sequential_witness :
    (HQMultiCodec TransportDirection.downstream).nextPushID =
      some (0, { HQMultiCodec TransportDirection.downstream with nextPushID_ := 0 + 1 }) ∧
    (allocPushIds (HQMultiCodec TransportDirection.downstream) 5).1 =
      List.range 5 :=
  nextPushID_sequential 5 (HQMultiCodec TransportDirection.downstream) rfl

/-- Claim C6: `onIngressPushId pushId` sets `minUnseenPushID_` to
`max minUnseenPushID_ (pushId + 1)` and changes nothing else (the whole
resulting state is that single-field update); consequently the field is
non-decreasing, and `onIngressPushId 5` followed by `onIngressPushId 3`
leaves it at 6. -/
theorem onIngressPushId_spec (st : HQMultiCodecS) (pushId : Nat) :
    st.onIngressPushId pushId =
      { st with minUnseenPushID_ := max st.minUnseenPushID_ (pushId + 1) } ∧
    st.minUnseenPushID_ ≤ (st.onIngressPushId pushId).minUnseenPushID_ ∧
    (((HQMultiCodec TransportDirection.downstream).onIngressPushId
          5).onIngressPushId 3).minUnseenPushID_ = 6 := by
  refine ⟨rfl, ?_, by decide⟩
  exact Nat.le_max_left _ _

/-- `addCodec` never changes the current stream and never removes registry
entries, so it preserves the cursor condition. -/
theorem CursorOk_addCodec (st : HQMultiCodecS) (id : Nat) (h : CursorOk st) :
    CursorOk (st.addCodec id).2 := by
  unfold CursorOk HQMultiCodecS.addCodec at *
  rcases h with h | h
  · left
    split <;> exact h
  · right
    split <;> by_cases hc : st.currentStream_ = id <;> simp [hc, h]

/-- `removeCodec` on a stream other than the current one preserves the cursor
condition. -/
theorem CursorOk_removeCodec (st : HQMultiCodecS) (id : Nat)
    (hne : st.currentStream_ ≠ id) (h : CursorOk st) :
    CursorOk (st.removeCodec id) := by
  unfold CursorOk HQMultiCodecS.removeCodec at *
  simpa [hne] using h

/-- `setCurrentStream` either leaves the state unchanged or selects a
registered stream, so it preserves the cursor condition. -/
theorem CursorOk_setCurrentStream (st : HQMultiCodecS) (id : Nat)
    (h : CursorOk st) : CursorOk (st.setCurrentStream id).2 := by
  unfold CursorOk HQMultiCodecS.setCurrentStream at *
  cases hfind : st.codecs_ id with
  | none => simpa [hfind] using h
  | some c => right; simp [hfind]

/-- A successful `onIngress` resets the cursor to the sentinel. -/
theorem CursorOk_onIngress (st : HQMultiCodecS) (inner : CodecS → Nat)
    (r : Nat) (st1 : HQMultiCodecS) (h : st.onIngress inner = some (r, st1)) :
    CursorOk st1 := by
  unfold HQMultiCodecS.onIngress at h
  cases hfind : st.codecs_ st.currentStream_ <;> rw [hfind] at h <;>
    simp only [Option.some.injEq, Prod.mk.injEq, reduceCtorEq] at h
  obtain ⟨-, h2⟩ := h
  exact Or.inl (h2 ▸ rfl)

/-- A successful `onIngressEOF` resets the cursor to the sentinel. -/
theorem CursorOk_onIngressEOF (st : HQMultiCodecS) (st1 : HQMultiCodecS)
    (h : st.onIngressEOF = some st1) : CursorOk st1 := by
  unfold HQMultiCodecS.onIngressEOF at h
  cases hfind : st.codecs_ st.currentStream_ <;> rw [hfind] at h <;>
    simp only [Option.some.injEq, reduceCtorEq] at h
  exact Or.inl (h ▸ rfl)

/-- `setCallback` maps every registry entry in place (keys unchanged) and
leaves the cursor unchanged, so it preserves the cursor condition. -/
theorem CursorOk_setCallback (st : HQMultiCodecS) (cb : Callback)
    (h : CursorOk st) : CursorOk (st.setCallback cb) := by
  unfold CursorOk HQMultiCodecS.setCallback at *
  rcases h with h | h
  · exact Or.inl h
  · right; simp [Option.isSome_map, h]

/-- Claim C7 (counterexample): the state reached by `addCodec 0`,
`setCurrentStream 0`, `removeCodec 0` — a sequence of public operations, none
of them fatal — has `currentStream_ = 0`, which is neither the sentinel nor a
key in the registry.  So invariant I2 does not hold in every reachable state:
removing the currently selected stream leaves a dangling non-sentinel
cursor (an ingress call beginning there dies on the `getCodec` CHECK). -/
theorem cursor_invariant_counterexample :
    (runOps (HQMultiCodec TransportDirection.downstream)
        [Op.addCodec 0, Op.setCurrentStream 0, Op.removeCodec 0]).map
      (fun st => decide (CursorOk st)) = some false := by
  decide

/-- Claim C7 (amended): in every state reachable from the initial state by
public operations in which `removeCodec` is never applied to the currently
selected stream, `currentStream_` is either the sentinel or a key currently
present in the registry — so whenever an ingress call begins in such a state
its target stream is registered. -/
theorem cursor_invariant_safe (d : TransportDirection) (st : HQMultiCodecS)
    (h : SafeReach d st) : CursorOk st := by
  induction h with
  | init => exact Or.inl rfl
  | @step st0 op st1 hre hap hguard ih =>
    cases op with
    | addCodec id =>
      simp only [applyOp, Option.some.injEq] at hap
      exact hap ▸ CursorOk_addCodec st0 id ih
    | removeCodec id =>
      simp only [applyOp, Option.some.injEq] at hap
      exact hap ▸ CursorOk_removeCodec st0 id (hguard id rfl) ih
    | setCurrentStream id =>
      simp only [applyOp, Option.some.injEq] at hap
      exact hap ▸ CursorOk_setCurrentStream st0 id ih
    | onIngress r =>
      simp only [applyOp] at hap
      obtain ⟨⟨r1, s1⟩, hsome, hsnd⟩ := Option.map_eq_some'.mp hap
      exact hsnd ▸ CursorOk_onIngress st0 (fun _ => r) r1 s1 hsome
    | onIngressEOF =>
      simp only [applyOp] at hap
      exact CursorOk_onIngressEOF st0 st1 hap
    | generateHeader s r =>
      simp only [applyOp, HQMultiCodecS.generateHeader] at hap
      cases hfind : st0.codecs_ s <;> rw [hfind] at hap <;> simp at hap
      exact hap ▸ ih
    | generatePushPromise s r =>
      simp only [applyOp, HQMultiCodecS.generatePushPromise] at hap
      cases hfind : st0.codecs_ s <;> rw [hfind] at hap <;> simp at hap
      exact hap ▸ ih
    | generateBody s r =>
      simp only [applyOp, HQMultiCodecS.generateBody] at hap
      cases hfind : st0.codecs_ s <;> rw [hfind] at hap <;> simp at hap
      exact hap ▸ ih
    | generateTrailers s r =>
      simp only [applyOp, HQMultiCodecS.generateTrailers] at hap
      cases hfind : st0.codecs_ s <;> rw [hfind] at hap <;> simp at hap
      exact hap ▸ ih
    | generateEOM s r =>
      simp only [applyOp, HQMultiCodecS.generateEOM] at hap
      cases hfind : st0.codecs_ s <;> rw [hfind] at hap <;> simp at hap
      exact hap ▸ ih
    | nextPushID =>
      simp only [applyOp, HQMultiCodecS.nextPushID] at hap
      split at hap
      case isTrue =>
        simp only [Option.map_some', Option.some.injEq] at hap
        rw [← hap]
        unfold CursorOk at *
        simpa using ih
      case isFalse => simp at hap
    | setCallback cb =>
      simp only [applyOp, Option.some.injEq] at hap
      exact hap ▸ CursorOk_setCallback st0 cb ih

/-- Witness for the amended C7: the safely-reached state `demoSelected`
(`addCodec 0` then `setCurrentStream 0`) satisfies the cursor condition. -/
theorem cursor_invariant_safe_witness : CursorOk demoSelected :=
  cursor_invariant_safe TransportDirection.downstream demoSelected
    (@SafeReach.step TransportDirection.downstream demoAdded
      (Op.setCurrentStream 0) demoSelected
      (@SafeReach.step TransportDirection.downstream
        (HQMultiCodec TransportDirection.downstream) (Op.addCodec 0) demoAdded
        SafeReach.init (by rfl) (fun id hid => Op.noConfusion hid))
      (by rfl) (fun id hid => Op.noConfusion hid))

/-- Claim C8: after `setCallback cb`, the stored shared callback is `cb` and
every codec currently in the registry has callback `cb`; moreover `addCodec`
creates (or refreshes) codecs with the currently stored callback, so
`setCallback cb` followed by `addCodec id` leaves the codec registered under
`id` — which is also the returned one — with callback `cb`. -/
theorem setCallback_fanout (st : HQMultiCodecS) (cb : Callback) (id : Nat) :
    (st.setCallback cb).callback_ = cb ∧
    (∀ k c, (st.setCallback cb).codecs_ k = some c → c.callback = cb) ∧
    ((st.setCallback cb).addCodec id).1.callback = cb ∧
    (((st.setCallback cb).addCodec id).2.codecs_ id).map CodecS.callback =
      some cb := by
  refine ⟨rfl, ?_, ?_, ?_⟩
  · intro k c h
    simp only [HQMultiCodecS.setCallback, Option.map_eq_some'] at h
    obtain ⟨c0, -, hc⟩ := h
    exact hc ▸ rfl
  · unfold HQMultiCodecS.addCodec
    split <;> rfl
  · unfold HQMultiCodecS.addCodec
    split <;> simp [HQMultiCodecS.setCallback]

/-- Witness for C8 with callback pointer `some 42` on `demoAdded`, adding
stream 3 afterwards. -/
theorem setCallback_fanout_witness :
    CodecS.callback ⟨0, some 42, 0⟩ = some 42 ∧
    ((demoAdded.setCallback (some 42)).addCodec 3).1.callback = some 42 ∧
    (((demoAdded.setCallback (some 42)).addCodec 3).2.codecs_ 3).map
        CodecS.callback = some (some 42) :=
  ⟨(setCallback_fanout demoAdded (some 42) 3).2.1 0 ⟨0, some 42, 0⟩ (by decide),
   (setCallback_fanout demoAdded (some 42) 3).2.2.1,
   (setCallback_fanout demoAdded (some 42) 3).2.2.2⟩

/-- Claim C9: when `stream` is registered with codec `c`, each egress
operation returns exactly the target codec's result `gen c` together with the
demultiplexer state unchanged — in particular the registry, `nextPushID_`,
`minUnseenStreamID_` and `minUnseenPushID_` are untouched. -/
theorem generate_dispatch (gen : CodecS → Nat) (st : HQMultiCodecS)
    (stream : Nat) (c : CodecS) (h : st.codecs_ stream = some c) :
    st.generateHeader gen stream = some (gen c, st) ∧
    st.generatePushPromise gen stream = some (gen c, st) ∧
    st.generateBody gen stream = some (gen c, st) ∧
    st.generateTrailers gen stream = some (gen c, st) ∧
    st.generateEOM gen stream = some (gen c, st) := by
  simp [HQMultiCodecS.generateHeader, HQMultiCodecS.generatePushPromise,
    HQMultiCodecS.generateBody, HQMultiCodecS.generateTrailers,
    HQMultiCodecS.generateEOM, h]

/-- Witness for C9 on `demoAdded` with the oracle returning the stream id
plus ten. -/
theorem generate_dispatch_witness :
    demoAdded.generateHeader (fun c => c.streamId + 10) 0 = some (10, demoAdded) ∧
    demoAdded.generatePushPromise (fun c => c.streamId + 10) 0 = some (10, demoAdded) ∧
    demoAdded.generateBody (fun c => c.streamId + 10) 0 = some (10, demoAdded) ∧
    demoAdded.generateTrailers (fun c => c.streamId + 10) 0 = some (10, demoAdded) ∧
    demoAdded.generateEOM (fun c => c.streamId + 10) 0 = some (10, demoAdded) :=
  generate_dispatch (fun c => c.streamId + 10) demoAdded 0 ⟨0, none, 0⟩ (by decide)

end HQ
